import Mathlib

/-!
Shallow embedding of the order workflow of the `estore-apis` backend
(`src/routes/orders.js`, together with the schemas in `src/models/` and the
JWT gate `helpers/authJwt.js`).

Modelling conventions:
* MongoDB ObjectIds are modelled as `Nat`; identifier generation is an
  explicit `nextId` counter on the store state (ids handed out are fresh).
* Collections are Lean lists; `Model.findById(x)` is `List.find?` on the id
  field, `Model.findByIdAndRemove(x)` removes the documents whose id is `x`
  (ids are unique in MongoDB, so filtering on the id is the removal of the
  single matching document), and `Model.findByIdAndUpdate` rewrites the
  matching document in place.
* JavaScript numbers that the routes treat as non-negative quantities,
  prices and totals are modelled as `Nat`.
* An exception thrown inside a handler's `try` block lands in its `catch`,
  which answers HTTP 500; exceptional control flow is therefore modelled
  with `Except` / explicit error results.
-/

namespace EStore

/-- Product document, following `src/models/Product.js` (the fields the
order routes consume: the id, the required name/description, the numeric
`price`, the category reference and the stock count). -/
structure Product where
  id : Nat
  name : String
  description : String
  price : Nat
  category : Nat
  countInStock : Nat
deriving DecidableEq, Repr

/-- OrderItem document, following `src/models/OrderItem.js`: a `quantity`
and a `product` reference. -/
structure OrderItem where
  id : Nat
  quantity : Nat
  product : Nat
deriving DecidableEq, Repr

/-- Order document. Its fields follow the construction in the
`POST /orders` handler of `src/routes/orders.js` (the `Order.js` schema
file itself is not under `src/`): the line item references, the five
shipping-address fields, phone, status, the computed `totalPrice` and the
user reference. The `dateOrdered` timestamp is Modelled from the spec:
"order timestamp (set once, at creation)" — the list handler sorts on it. -/
structure Order where
  id : Nat
  orderItems : List Nat
  shippingAddress1 : String
  shippingAddress2 : String
  city : String
  zip : String
  country : String
  phone : String
  status : String
  totalPrice : Nat
  user : Nat
  dateOrdered : Nat
deriving DecidableEq, Repr

/-- The persistent store: the three collections the order routes touch,
plus the fresh-id counter standing for MongoDB ObjectId generation. -/
structure StoreState where
  products : List Product
  orderItems : List OrderItem
  orders : List Order
  nextId : Nat
deriving DecidableEq, Repr

/-- The uniform response envelope of the routes: a success status plus
payload, or a failure status plus error message. -/
inductive ApiResult (α : Type) where
  | ok (status : Nat) (data : α)
  | err (status : Nat) (msg : String)
deriving DecidableEq, Repr

/-- One entry of the `req.body.orderItems` array of the create-order
request: `{ "quantity": ..., "product": <ObjectId> }`. -/
structure ReqItem where
  quantity : Nat
  product : Nat
deriving DecidableEq, Repr

/-- The body of a `POST /orders` request, exactly the fields the handler
reads from `req.body` (note: there is no `totalPrice` field — the handler
never reads one, so the caller cannot supply it). -/
structure OrderRequest where
  orderItems : List ReqItem
  shippingAddress1 : String
  shippingAddress2 : String
  city : String
  zip : String
  country : String
  phone : String
  status : String
  user : Nat
deriving DecidableEq, Repr

/-- `Order.findById` / the `{'_id': oid}` lookup on the orders collection. -/
def findOrder (orders : List Order) (oid : Nat) : Option Order :=
  orders.find? (fun o => o.id == oid)

/-- `OrderItem.findById` on the order-items collection. -/
def findOrderItem (items : List OrderItem) (iid : Nat) : Option OrderItem :=
  items.find? (fun it => it.id == iid)

/-- `Product.findById` on the products collection (used through
`.populate('product', 'price')`). -/
def findProduct (prods : List Product) (pid : Nat) : Option Product :=
  prods.find? (fun p => p.id == pid)

/-- The unit price the pricing step reads for a product reference (0 when
the reference is dangling; that branch throws in the handler and is only
used to state snapshot values for existing products). -/
def priceOf (prods : List Product) (pid : Nat) : Nat :=
  match findProduct prods pid with
  | some p => p.price
  | none => 0

/-! ### Line item materializer (`POST /orders`, first phase)

`req.body.orderItems.map(...)` saves one `OrderItem` per requested pair and
`Promise.all` returns the saved ids in the order of the input array. -/

/-- Persist one `OrderItem` per `(quantity, product)` pair, threading the
fresh-id counter; returns the saved documents, the saved ids in input
order, and the advanced counter. -/
def materializeItems : List ReqItem → Nat → List OrderItem × List Nat × Nat
  | [], nextId => ([], [], nextId)
  | r :: rs, nextId =>
    let saved : OrderItem := { id := nextId, quantity := r.quantity, product := r.product }
    let rest := materializeItems rs (nextId + 1)
    (saved :: rest.1, nextId :: rest.2.1, rest.2.2)

/-! ### Pricing calculator (`POST /orders`, second phase) -/

/-- The two abnormal outcomes of the pricing loop:
`productMissing` models the `TypeError` thrown by
`item.quantity * item.product.price` when the populated product is `null`
(the handler's `catch` turns it into a 500); `itemMissing` models the
`if (item)` guard failing, in which case the JavaScript callback returns
`undefined` and the sum is poisoned — unreachable in the handler because
the items were just saved. -/
inductive PostErr where
  | productMissing
  | itemMissing
deriving DecidableEq, Repr

/-- One subtotal of the pricing loop: look the saved order item up again,
populate its product's price, and multiply quantity by price. -/
def subtotalFor (items : List OrderItem) (prods : List Product) (oid : Nat) :
    Except PostErr Nat :=
  match findOrderItem items oid with
  | none => .error .itemMissing
  | some item =>
    match findProduct prods item.product with
    | none => .error .productMissing
    | some p => .ok (item.quantity * p.price)

/-- `Promise.all` over the subtotal lookups: all succeed, or the first
rejection aborts the batch. -/
def collectSubtotals (f : Nat → Except PostErr Nat) : List Nat → Except PostErr (List Nat)
  | [] => .ok []
  | a :: l =>
    match f a with
    | .error e => .error e
    | .ok b =>
      match collectSubtotals f l with
      | .error e => .error e
      | .ok bs => .ok (b :: bs)

/-! ### Order aggregate builder (`POST /orders`, third phase) -/

/-- The `POST /orders` handler: materialize the line items, price them
against the current catalog, sum the subtotals with
`reduce((a,b) => a + b, 0)`, and persist the `Order` built from the
request fields and the computed total. -/
def postOrder (s : StoreState) (req : OrderRequest) (now : Nat) :
    Except PostErr (StoreState × Order) :=
  let mat := materializeItems req.orderItems s.nextId
  let s1 : StoreState := { s with orderItems := s.orderItems ++ mat.1, nextId := mat.2.2 }
  match collectSubtotals (subtotalFor s1.orderItems s1.products) mat.2.1 with
  | .error e => .error e
  | .ok subs =>
    let totalPrice := subs.foldl (· + ·) 0
    let order : Order := {
      id := s1.nextId
      orderItems := mat.2.1
      shippingAddress1 := req.shippingAddress1
      shippingAddress2 := req.shippingAddress2
      city := req.city
      zip := req.zip
      country := req.country
      phone := req.phone
      status := req.status
      totalPrice := totalPrice
      user := req.user
      dateOrdered := now }
    .ok ({ s1 with orders := s1.orders ++ [order], nextId := s1.nextId + 1 }, order)

/-! ### Order query service (`GET /orders`, `GET /orders/:id`) -/

/-- The representation a query returns for one order: the order's own
fields, with the five shipping-address fields optional because the list
query excludes them via
`.select('-shippingAddress1 -shippingAddress2 -city -zip -country')`.
(The nested population of user name / product / category is a read-time
expansion of referenced entities and is not needed by any property here.) -/
structure OrderView where
  id : Nat
  orderItems : List Nat
  shippingAddress1 : Option String
  shippingAddress2 : Option String
  city : Option String
  zip : Option String
  country : Option String
  phone : String
  status : String
  totalPrice : Nat
  user : Nat
  dateOrdered : Nat
deriving DecidableEq, Repr

/-- Projection applied by the list query: shipping-address fields excluded. -/
def selectNoAddress (o : Order) : OrderView :=
  { id := o.id
    orderItems := o.orderItems
    shippingAddress1 := none
    shippingAddress2 := none
    city := none
    zip := none
    country := none
    phone := o.phone
    status := o.status
    totalPrice := o.totalPrice
    user := o.user
    dateOrdered := o.dateOrdered }

/-- Representation returned by the get-by-id query: no projection, every
field present. -/
def fullView (o : Order) : OrderView :=
  { id := o.id
    orderItems := o.orderItems
    shippingAddress1 := some o.shippingAddress1
    shippingAddress2 := some o.shippingAddress2
    city := some o.city
    zip := some o.zip
    country := some o.country
    phone := o.phone
    status := o.status
    totalPrice := o.totalPrice
    user := o.user
    dateOrdered := o.dateOrdered }

/-- The result set of the list query: all orders, address fields stripped,
sorted by `dateOrdered` descending. -/
def orderListViews (s : StoreState) : List OrderView :=
  (s.orders.mergeSort (fun a b => b.dateOrdered ≤ a.dateOrdered)).map selectNoAddress

/-- `GET /orders`: `Order.find()` always resolves to an array (modelled by
the `some`), so the `if (!allOrders)` 500 branch is kept but vacuous. -/
def getAllOrders (s : StoreState) : ApiResult (List OrderView) :=
  match some (orderListViews s) with
  | none => .err 500 "Unable to get orders"
  | some vs => .ok 200 vs

/-- `GET /orders/:id`: a missing order answers 500 with the handler's
message; a found order is returned unprojected. -/
def getOrderById (s : StoreState) (oid : Nat) : ApiResult OrderView :=
  match findOrder s.orders oid with
  | none => .err 500 "Unable to get order with this id"
  | some o => .ok 200 (fullView o)

/-! ### Order lifecycle manager (`PUT /orders/:id`, `DELETE /orders/:id`) -/

/-- Replace the (unique) document whose id matches with the given
document, in place; MongoDB updates exactly the one matching document, so
the first match is replaced. -/
def updateFirstById (orders : List Order) (oid : Nat) (o' : Order) : List Order :=
  match orders with
  | [] => []
  | x :: rest => if x.id == oid then o' :: rest else x :: updateFirstById rest oid o'

/-- `PUT /orders/:id`:
`Order.findByIdAndUpdate(id, { 'status': req.body.status }, {new: true})` —
rewrite only the `status` field of the matching order and hand back the
updated document; `null` (modelled `none`) when no order matches. -/
def updateOrderStatus (s : StoreState) (oid : Nat) (newStatus : String) :
    Option Order × StoreState :=
  match findOrder s.orders oid with
  | none => (none, s)
  | some o =>
    let o' : Order := { o with status := newStatus }
    (some o', { s with orders := updateFirstById s.orders oid o' })

/-- The response of the `PUT /orders/:id` handler around
`updateOrderStatus`: 400 when no order matched, otherwise 200 with the
updated order. -/
def putOrderStatus (s : StoreState) (oid : Nat) (newStatus : String) :
    ApiResult Order × StoreState :=
  match updateOrderStatus s oid newStatus with
  | (none, s') => (.err 400 "Unable to update status for this order", s')
  | (some o, s') => (.ok 200 o, s')

/-- `OrderItem.findByIdAndRemove(id)`: remove the document with that id. -/
def removeOrderItem (items : List OrderItem) (iid : Nat) : List OrderItem :=
  items.filter (fun it => !(it.id == iid))

/-- `DELETE /orders/:id`: `Order.findByIdAndRemove` first; when no order
matched, 404 and nothing else happens; otherwise the order is removed and
each line item id it referenced is removed from the order-items
collection, and the deleted order is echoed back with 200. -/
def deleteOrder (s : StoreState) (oid : Nat) : ApiResult Order × StoreState :=
  match findOrder s.orders oid with
  | none => (.err 404 "Unable to find and delete this order", s)
  | some o =>
    let s1 := { s with orders := s.orders.filter (fun x => !(x.id == oid)) }
    let s2 := { s1 with
      orderItems := o.orderItems.foldl (fun l iid => removeOrderItem l iid) s1.orderItems }
    (.ok 200 o, s2)

/-! ### Sales reporting (`/orders/get/count`, `/orders/get/totalsales`,
`/orders/get/orders/:userid`) -/

/-- `GET /orders/get/count`: `Order.countDocuments()` yields the number of
orders; the handler's `if (!count)` guard is taken exactly when that
number is `0` (JavaScript falsiness), answering 500. -/
def getOrderCount (s : StoreState) : ApiResult Nat :=
  let count := s.orders.length
  if count == 0 then .err 500 "Unable to get count of orders"
  else .ok 200 count

/-- The `$group` aggregation summing `totalPrice`: over a non-empty orders
collection it yields the one-element result set `[Σ totalPrice]`; over an
empty collection it yields the empty result set. -/
def totalsalesAggregate (orders : List Order) : List Nat :=
  if orders.isEmpty then [] else [(orders.map (fun o => o.totalPrice)).sum]

/-- `GET /orders/get/totalsales`: the aggregate array is truthy even when
empty, so the `if (!totalsales)` guard never fires; the handler then reads
`totalsales.pop().totalsales`. `pop()` takes the last element; on the
empty result set it is `undefined` and the `.totalsales` access throws a
`TypeError`, which the `catch` turns into a 500. -/
def getTotalSales (s : StoreState) : ApiResult Nat :=
  let agg := totalsalesAggregate s.orders
  match agg.getLast? with
  | none => .err 500 "TypeError"
  | some t => .ok 200 t

/-- `Order.find({'user': userid})`: always resolves to the (possibly
empty) array of matching orders, never to `null`. -/
def findOrdersByUser (s : StoreState) (uid : Nat) : Option (List Order) :=
  some (s.orders.filter (fun o => o.user == uid))

/-- `GET /orders/get/orders/:userid`: the `if (!orders)` 400 branch as in
the source, then 200 with the filtered array. -/
def getOrdersByUser (s : StoreState) (uid : Nat) : ApiResult (List Order) :=
  match findOrdersByUser s uid with
  | none => .err 400 "Unable to get orders for this user"
  | some orders => .ok 200 orders

/-! ### JWT gate (`helpers/authJwt.js`) -/

/-- The decoded bearer-token payload fields the gate consults. -/
structure TokenPayload where
  userId : Nat
  userIsAdmin : Bool
deriving DecidableEq, Repr

/-- `isRevoked(req, token)`: returns `true` when
`!token.payload.userIsAdmin`, and otherwise falls off the end
(`undefined`, falsy — not revoked). -/
def isRevoked (payload : TokenPayload) : Bool :=
  !payload.userIsAdmin

/-! ### Theorems -/

/-- Claim C5: the materializer persists one LineItem per requested
(quantity, product) pair — positionally, the saved documents carry exactly
the input quantities and product references in input order — and the
returned identifier sequence is the saved documents' ids in that same
order. -/
theorem materializer_persists_pairs_in_order (rs : List ReqItem) (nextId : Nat) :
    ((materializeItems rs nextId).1).length = rs.length ∧
    ((materializeItems rs nextId).1).map (fun it => it.quantity) =
      rs.map (fun r => r.quantity) ∧
    ((materializeItems rs nextId).1).map (fun it => it.product) =
      rs.map (fun r => r.product) ∧
    (materializeItems rs nextId).2.1 = ((materializeItems rs nextId).1).map (fun it => it.id) := by
  induction rs generalizing nextId with
  | nil => simp [materializeItems]
  | cons r rs ih =>
    obtain ⟨h1, h2, h3, h4⟩ := ih (nextId + 1)
    simp only [materializeItems, List.length_cons, List.map_cons]
    exact ⟨by rw [h1], by rw [h2], by rw [h3], by rw [h4]⟩

/-- Claim C8: the credential gate revokes exactly the credentials whose
payload lacks the admin flag; admin-flagged credentials are not revoked. -/
theorem isRevoked_iff_not_admin (p : TokenPayload) :
    (isRevoked p = true ↔ p.userIsAdmin = false) ∧
    (isRevoked p = false ↔ p.userIsAdmin = true) := by
  cases p with
  | mk uid adm => cases adm <;> simp [isRevoked]

/-- Claim C10: for every store state and every user id, the orders-by-user
query answers 200 with the (possibly empty) array of orders whose user
reference equals that id — in particular the handler's 400 branch is never
taken. -/
theorem getOrdersByUser_always_succeeds (s : StoreState) (uid : Nat) :
    getOrdersByUser s uid = .ok 200 (s.orders.filter (fun o => o.user == uid)) := rfl

/-- Claim C2 (failing input): on a store with zero orders the totalsales
handler does not answer 0 — the aggregation result set is empty, `pop()`
yields `undefined`, the `.totalsales` access throws, and the handler
answers 500. -/
theorem totalsales_zero_orders_is_error :
    getTotalSales { products := [], orderItems := [], orders := [], nextId := 0 } =
      .err 500 "TypeError" := rfl

/-- Claim C7 (failing input): on a store with zero orders the count
handler answers 500, not 200 with count 0 — `countDocuments()` yields 0,
which is falsy, so the `if (!count)` error branch fires. -/
theorem count_zero_orders_is_error :
    getOrderCount { products := [], orderItems := [], orders := [], nextId := 0 } =
      .err 500 "Unable to get count of orders" := rfl

/-- Claim C9: deleting an order id that matches no stored order answers
404 and returns the store completely unchanged. -/
theorem deleteOrder_not_found_404_no_effects (s : StoreState) (oid : Nat)
    (h : findOrder s.orders oid = none) :
    deleteOrder s oid = (.err 404 "Unable to find and delete this order", s) := by
  simp [deleteOrder, h]

/-- Witness for `deleteOrder_not_found_404_no_effects` at a concrete
store holding one order with id 1 and a lookup of the absent id 5. -/
theorem deleteOrder_not_found_witness :
    findOrder (StoreState.mk []
      [OrderItem.mk 3 2 1]
      [Order.mk 1 [3] "a1" "a2" "c" "z" "co" "ph" "Pending" 20 7 99] 10).orders 5 = none ∧
    deleteOrder (StoreState.mk []
      [OrderItem.mk 3 2 1]
      [Order.mk 1 [3] "a1" "a2" "c" "z" "co" "ph" "Pending" 20 7 99] 10) 5 =
      (.err 404 "Unable to find and delete this order",
       StoreState.mk []
        [OrderItem.mk 3 2 1]
        [Order.mk 1 [3] "a1" "a2" "c" "z" "co" "ph" "Pending" 20 7 99] 10) :=
  ⟨by decide, deleteOrder_not_found_404_no_effects _ 5 (by decide)⟩

/-- Replacing the matching document in place does not disturb the sublist
of documents with a different id. -/
lemma updateFirstById_filter_ne (l : List Order) (oid : Nat) (o' : Order)
    (ho : (o'.id == oid) = true) :
    (updateFirstById l oid o').filter (fun x => !(x.id == oid)) =
      l.filter (fun x => !(x.id == oid)) := by
  induction l with
  | nil => rfl
  | cons x l ih =>
    cases hx : (x.id == oid) with
    | true =>
      simp only [updateFirstById]
      rw [if_pos hx, List.filter_cons, List.filter_cons]
      rw [if_neg (by simp [ho]), if_neg (by simp [hx])]
    | false =>
      simp only [updateFirstById]
      rw [if_neg (by simp [hx]), List.filter_cons, List.filter_cons]
      rw [if_pos (by simp [hx]), if_pos (by simp [hx]), ih]

/-- Looking the id up after replacing the matching document in place finds
the replacement exactly when the original lookup found a document. -/
lemma updateFirstById_find? (l : List Order) (oid : Nat) (o' : Order)
    (ho : (o'.id == oid) = true) :
    (updateFirstById l oid o').find? (fun x => x.id == oid) =
      (l.find? (fun x => x.id == oid)).map (fun _ => o') := by
  induction l with
  | nil => rfl
  | cons x l ih =>
    cases hx : (x.id == oid) with
    | true =>
      simp only [updateFirstById]
      rw [if_pos hx]
      simp [List.find?_cons, ho, hx]
    | false =>
      simp only [updateFirstById]
      rw [if_neg (by simp [hx])]
      simp [List.find?_cons, hx, ih]

/-- Replacing the matching document in place keeps the collection size. -/
lemma updateFirstById_length (l : List Order) (oid : Nat) (o' : Order) :
    (updateFirstById l oid o').length = l.length := by
  induction l with
  | nil => rfl
  | cons x l ih =>
    simp only [updateFirstById]
    split <;> simp [ih]

/-- Claim C6: updating the status of an existing order hands back the
order with only the status field overwritten (every other field keeps its
old value), the updated order is what a subsequent lookup of that id
finds, and every order with a different id is untouched. -/
theorem update_status_overwrites_only_status (s : StoreState) (oid : Nat) (ns : String)
    (o : Order) (h : findOrder s.orders oid = some o) :
    ((putOrderStatus s oid ns).1 = .ok 200 { o with status := ns }) ∧
    (Order.status { o with status := ns } = ns) ∧
    (Order.id { o with status := ns } = o.id) ∧
    (Order.orderItems { o with status := ns } = o.orderItems) ∧
    (Order.shippingAddress1 { o with status := ns } = o.shippingAddress1) ∧
    (Order.shippingAddress2 { o with status := ns } = o.shippingAddress2) ∧
    (Order.city { o with status := ns } = o.city) ∧
    (Order.zip { o with status := ns } = o.zip) ∧
    (Order.country { o with status := ns } = o.country) ∧
    (Order.phone { o with status := ns } = o.phone) ∧
    (Order.totalPrice { o with status := ns } = o.totalPrice) ∧
    (Order.user { o with status := ns } = o.user) ∧
    (Order.dateOrdered { o with status := ns } = o.dateOrdered) ∧
    (findOrder ((putOrderStatus s oid ns).2.orders) oid = some { o with status := ns }) ∧
    ((putOrderStatus s oid ns).2.orders.filter (fun x => !(x.id == oid)) =
      s.orders.filter (fun x => !(x.id == oid))) ∧
    ((putOrderStatus s oid ns).2.orders.length = s.orders.length) := by
  have h' : s.orders.find? (fun x => x.id == oid) = some o := h
  have hid0 := List.find?_some h'
  have hid : (o.id == oid) = true := hid0
  have hid' : (Order.id { o with status := ns } == oid) = true := hid
  refine ⟨?_, rfl, rfl, rfl, rfl, rfl, rfl, rfl, rfl, rfl, rfl, rfl, rfl, ?_, ?_, ?_⟩
  · simp [putOrderStatus, updateOrderStatus, h]
  · show findOrder ((putOrderStatus s oid ns).2.orders) oid = some { o with status := ns }
    simp only [putOrderStatus, updateOrderStatus, findOrder, h']
    rw [updateFirstById_find? _ _ _ hid', h']
    rfl
  · simp only [putOrderStatus, updateOrderStatus, findOrder, h']
    exact updateFirstById_filter_ne s.orders oid _ hid'
  · simp only [putOrderStatus, updateOrderStatus, findOrder, h']
    exact updateFirstById_length s.orders oid _

/-- Witness for `update_status_overwrites_only_status`: a store with two
orders, updating the status of the order with id 1 from Pending to
Shipped. -/
theorem update_status_witness :
    findOrder (StoreState.mk [] []
      [Order.mk 1 [3] "a1" "a2" "c" "z" "co" "ph" "Pending" 20 7 99,
       Order.mk 2 [4] "b1" "b2" "d" "y" "cp" "pq" "Pending" 30 8 98] 10).orders 1 =
      some (Order.mk 1 [3] "a1" "a2" "c" "z" "co" "ph" "Pending" 20 7 99) ∧
    (putOrderStatus (StoreState.mk [] []
      [Order.mk 1 [3] "a1" "a2" "c" "z" "co" "ph" "Pending" 20 7 99,
       Order.mk 2 [4] "b1" "b2" "d" "y" "cp" "pq" "Pending" 30 8 98] 10) 1 "Shipped").1 =
      .ok 200 (Order.mk 1 [3] "a1" "a2" "c" "z" "co" "ph" "Shipped" 20 7 99) :=
  ⟨by decide,
   (update_status_overwrites_only_status _ 1 "Shipped"
      (Order.mk 1 [3] "a1" "a2" "c" "z" "co" "ph" "Pending" 20 7 99) (by decide)).1⟩

/-- Claim C4: the list query returns representations with every
shipping-address field stripped, while the get-by-id query of an existing
order returns a representation carrying all five shipping-address fields
of the stored order. -/
theorem list_strips_address_get_includes_it (s : StoreState) (oid : Nat) (o : Order)
    (h : findOrder s.orders oid = some o) :
    (getAllOrders s = .ok 200 (orderListViews s)) ∧
    ((orderListViews s).all (fun v =>
        v.shippingAddress1.isNone && v.shippingAddress2.isNone && v.city.isNone &&
        v.zip.isNone && v.country.isNone) = true) ∧
    (getOrderById s oid = .ok 200 (fullView o)) ∧
    (OrderView.shippingAddress1 (fullView o) = some o.shippingAddress1) ∧
    (OrderView.shippingAddress2 (fullView o) = some o.shippingAddress2) ∧
    (OrderView.city (fullView o) = some o.city) ∧
    (OrderView.zip (fullView o) = some o.zip) ∧
    (OrderView.country (fullView o) = some o.country) := by
  refine ⟨rfl, ?_, ?_, rfl, rfl, rfl, rfl, rfl⟩
  · rw [List.all_eq_true]
    intro v hv
    obtain ⟨x, _, rfl⟩ := List.mem_map.mp hv
    rfl
  · simp [getOrderById, h]

/-- Witness for `list_strips_address_get_includes_it` at a store holding
one order with id 1, looked up by that id. -/
theorem list_get_projection_witness :
    findOrder (StoreState.mk [] []
      [Order.mk 1 [3] "a1" "a2" "c" "z" "co" "ph" "Pending" 20 7 99] 10).orders 1 =
      some (Order.mk 1 [3] "a1" "a2" "c" "z" "co" "ph" "Pending" 20 7 99) ∧
    getOrderById (StoreState.mk [] []
      [Order.mk 1 [3] "a1" "a2" "c" "z" "co" "ph" "Pending" 20 7 99] 10) 1 =
      .ok 200 (fullView (Order.mk 1 [3] "a1" "a2" "c" "z" "co" "ph" "Pending" 20 7 99)) :=
  ⟨by decide,
   (list_strips_address_get_includes_it _ 1
      (Order.mk 1 [3] "a1" "a2" "c" "z" "co" "ph" "Pending" 20 7 99) (by decide)).2.2.1⟩

/-- Whatever survives the cascade of line-item removals was already in the
collection before it. -/
lemma mem_foldl_removeOrderItem (ids : List Nat) (init : List OrderItem) (x : OrderItem)
    (hx : x ∈ ids.foldl (fun l iid => removeOrderItem l iid) init) : x ∈ init := by
  induction ids generalizing init with
  | nil => exact hx
  | cons i ids ih =>
    have := ih (removeOrderItem init i) hx
    exact (List.mem_filter.mp this).1

/-- After folding the per-id removals over the referenced ids, looking any
referenced id up finds nothing. -/
lemma foldl_removeOrderItem_find?_eq_none (ids : List Nat) (init : List OrderItem)
    (iid : Nat) (hm : iid ∈ ids) :
    findOrderItem (ids.foldl (fun l i => removeOrderItem l i) init) iid = none := by
  induction ids generalizing init with
  | nil => cases hm
  | cons i ids ih =>
    simp only [List.foldl_cons]
    rcases List.mem_cons.mp hm with hEq | hTail
    · subst hEq
      rcases Decidable.em (iid ∈ ids) with hIn | hOut
      · exact ih (removeOrderItem init iid) hIn
      · simp only [findOrderItem]
        rw [List.find?_eq_none]
        intro x hx
        have hx' : x ∈ removeOrderItem init iid :=
          mem_foldl_removeOrderItem ids (removeOrderItem init iid) x hx
        have hne := (List.mem_filter.mp hx').2
        simp only [Bool.not_eq_true'] at hne
        simp [hne]
    · exact ih (removeOrderItem init i) hTail

/-- Claim C3: deleting an existing order answers 200 with the deleted
order, the order id no longer resolves, and a direct lookup of every line
item id the order referenced reports not-found. -/
theorem delete_order_cascades_line_items (s : StoreState) (oid : Nat) (o : Order)
    (h : findOrder s.orders oid = some o) :
    ((deleteOrder s oid).1 = .ok 200 o) ∧
    (findOrder ((deleteOrder s oid).2.orders) oid = none) ∧
    (o.orderItems.all (fun iid =>
        (findOrderItem ((deleteOrder s oid).2.orderItems) iid).isNone) = true) := by
  have h' : s.orders.find? (fun x => x.id == oid) = some o := h
  refine ⟨?_, ?_, ?_⟩
  · simp [deleteOrder, findOrder, h']
  · simp only [deleteOrder, findOrder, h']
    rw [List.find?_eq_none]
    intro x hx
    have := (List.mem_filter.mp hx).2
    simp only [Bool.not_eq_true'] at this
    simp [this]
  · rw [List.all_eq_true]
    intro iid hiid
    simp only [deleteOrder, findOrder, h']
    rw [foldl_removeOrderItem_find?_eq_none o.orderItems _ iid hiid]
    rfl

/-- Witness for `delete_order_cascades_line_items`: a store with one order
referencing line items 3 and 4, plus an unrelated line item 5; deleting
the order. -/
theorem delete_order_cascade_witness :
    findOrder (StoreState.mk []
      [OrderItem.mk 3 2 1, OrderItem.mk 4 1 2, OrderItem.mk 5 9 1]
      [Order.mk 1 [3, 4] "a1" "a2" "c" "z" "co" "ph" "Pending" 25 7 99] 10).orders 1 =
      some (Order.mk 1 [3, 4] "a1" "a2" "c" "z" "co" "ph" "Pending" 25 7 99) ∧
    ((Order.mk 1 [3, 4] "a1" "a2" "c" "z" "co" "ph" "Pending" 25 7 99).orderItems.all
      (fun iid =>
        (findOrderItem ((deleteOrder (StoreState.mk []
          [OrderItem.mk 3 2 1, OrderItem.mk 4 1 2, OrderItem.mk 5 9 1]
          [Order.mk 1 [3, 4] "a1" "a2" "c" "z" "co" "ph" "Pending" 25 7 99] 10) 1).2.orderItems)
          iid).isNone) = true) :=
  ⟨by decide,
   (delete_order_cascades_line_items _ 1
      (Order.mk 1 [3, 4] "a1" "a2" "c" "z" "co" "ph" "Pending" 25 7 99) (by decide)).2.2⟩

/-- Replacing the found document with a copy carrying the same
`totalPrice` leaves the sequence of stored totals unchanged. -/
lemma updateFirstById_map_totalPrice (l : List Order) (oid : Nat) (o o' : Order)
    (hf : l.find? (fun x => x.id == oid) = some o) (htp : o'.totalPrice = o.totalPrice) :
    (updateFirstById l oid o').map (fun x => x.totalPrice) =
      l.map (fun x => x.totalPrice) := by
  induction l with
  | nil => simp at hf
  | cons x l ih =>
    cases hx : (x.id == oid) with
    | true =>
      simp only [List.find?_cons, hx] at hf
      simp only [Option.some.injEq] at hf
      simp only [updateFirstById]
      rw [if_pos hx]
      simp [htp, hf]
    | false =>
      simp only [List.find?_cons, hx] at hf
      simp only [updateFirstById]
      rw [if_neg (by simp [hx])]
      simp [ih hf]

/-- The status update never touches any stored `totalPrice`: the sequence
of totals over the orders collection is the same before and after. -/
lemma updateOrderStatus_keeps_totals (t : StoreState) (oid : Nat) (ns : String) :
    (updateOrderStatus t oid ns).2.orders.map (fun x => x.totalPrice) =
      t.orders.map (fun x => x.totalPrice) := by
  cases h : findOrder t.orders oid with
  | none => simp [updateOrderStatus, h]
  | some o =>
    simp only [updateOrderStatus, h]
    exact updateFirstById_map_totalPrice t.orders oid o _ h rfl

/-- Pricing the freshly materialized line items: provided every already
stored line item has an id below the counter (ids are fresh) and every
requested product reference resolves, the pricing loop succeeds and
yields exactly quantity × current catalog price, pair by pair in input
order. -/
lemma subtotals_of_materialized (rs : List ReqItem) (prods : List Product)
    (old : List OrderItem) (nid : Nat)
    (hfresh : ∀ it ∈ old, it.id < nid)
    (hvalid : ∀ r ∈ rs, (findProduct prods r.product).isSome = true) :
    collectSubtotals (subtotalFor (old ++ (materializeItems rs nid).1) prods)
        ((materializeItems rs nid).2.1) =
      .ok (rs.map (fun r => r.quantity * priceOf prods r.product)) := by
  induction rs generalizing old nid with
  | nil => rfl
  | cons r rs ih =>
    obtain ⟨p, hp⟩ := Option.isSome_iff_exists.mp (hvalid r (List.mem_cons_self r rs))
    have hold : old.find? (fun it => it.id == nid) = none := by
      rw [List.find?_eq_none]
      intro it hit
      simp [Nat.ne_of_lt (hfresh it hit)]
    have hhead : subtotalFor
        (old ++ OrderItem.mk nid r.quantity r.product :: (materializeItems rs (nid + 1)).1)
        prods nid = .ok (r.quantity * priceOf prods r.product) := by
      have hp' : prods.find? (fun q => q.id == r.product) = some p := hp
      simp only [subtotalFor, findOrderItem]
      rw [List.find?_append, hold]
      simp [List.find?_cons, priceOf, findProduct, hp']
    have hfresh' : ∀ it ∈ old ++ [OrderItem.mk nid r.quantity r.product], it.id < nid + 1 := by
      intro it hit
      rcases List.mem_append.mp hit with h1 | h2
      · exact Nat.lt_succ_of_lt (hfresh it h1)
      · rw [List.mem_singleton.mp h2]
        exact Nat.lt_succ_self nid
    have hvalid' : ∀ r' ∈ rs, (findProduct prods r'.product).isSome = true :=
      fun r' hr' => hvalid r' (List.mem_cons_of_mem r hr')
    have htail := ih (old ++ [OrderItem.mk nid r.quantity r.product]) (nid + 1) hfresh' hvalid'
    simp only [List.append_assoc, List.singleton_append] at htail
    simp only [materializeItems, collectSubtotals, hhead, htail, List.map_cons]

/-- Claim C1: for a valid order-creation request (one whose product
references all resolve) against a store whose stored line item ids are
below the fresh-id counter, the persisted order's `totalPrice` is exactly
the sum over the requested pairs of quantity × the product price read at
creation time; the request type carries no `totalPrice` field (the caller
cannot supply one), and the only later mutation, the status update, keeps
every stored `totalPrice` unchanged. -/
theorem post_order_totalPrice_is_snapshot_sum (s : StoreState) (req : OrderRequest)
    (now oid : Nat) (ns : String)
    (hfresh : ∀ it ∈ s.orderItems, it.id < s.nextId)
    (hvalid : ∀ r ∈ req.orderItems, (findProduct s.products r.product).isSome = true) :
    ((postOrder s req now).map (fun p => p.2.totalPrice) =
      .ok ((req.orderItems.map (fun r => r.quantity * priceOf s.products r.product)).sum)) ∧
    ((postOrder s req now).map (fun p =>
        (updateOrderStatus p.1 oid ns).2.orders.map (fun x => x.totalPrice)) =
      (postOrder s req now).map (fun p => p.1.orders.map (fun x => x.totalPrice))) := by
  constructor
  · have hsub := subtotals_of_materialized req.orderItems s.products s.orderItems s.nextId
      hfresh hvalid
    simp only [postOrder]
    rw [hsub]
    simp [Except.map, List.sum_eq_foldl]
  · cases hpost : postOrder s req now with
    | error e => rfl
    | ok p => simp [Except.map, updateOrderStatus_keeps_totals]

/-- Witness for `post_order_totalPrice_is_snapshot_sum`: catalog prices
10 and 5, request quantities 3 and 2 — the persisted total is 40. -/
theorem post_order_totalPrice_witness :
    (∀ it ∈ (StoreState.mk
        [Product.mk 1 "P1" "D1" 10 100 5, Product.mk 2 "P2" "D2" 5 100 5]
        [] [] 50).orderItems,
      it.id < (StoreState.mk
        [Product.mk 1 "P1" "D1" 10 100 5, Product.mk 2 "P2" "D2" 5 100 5]
        [] [] 50).nextId) ∧
    ((postOrder (StoreState.mk
        [Product.mk 1 "P1" "D1" 10 100 5, Product.mk 2 "P2" "D2" 5 100 5]
        [] [] 50)
      (OrderRequest.mk [ReqItem.mk 3 1, ReqItem.mk 2 2]
        "Flowers Street , 45" "1-B" "Prague" "00000" "Czech Republic"
        "+420702241333" "Pending" 7) 99).map (fun p => p.2.totalPrice) =
      .ok (((OrderRequest.mk [ReqItem.mk 3 1, ReqItem.mk 2 2]
        "Flowers Street , 45" "1-B" "Prague" "00000" "Czech Republic"
        "+420702241333" "Pending" 7).orderItems.map (fun r =>
          r.quantity * priceOf (StoreState.mk
            [Product.mk 1 "P1" "D1" 10 100 5, Product.mk 2 "P2" "D2" 5 100 5]
            [] [] 50).products r.product)).sum)) :=
  ⟨by decide,
   (post_order_totalPrice_is_snapshot_sum
      (StoreState.mk
        [Product.mk 1 "P1" "D1" 10 100 5, Product.mk 2 "P2" "D2" 5 100 5]
        [] [] 50)
      (OrderRequest.mk [ReqItem.mk 3 1, ReqItem.mk 2 2]
        "Flowers Street , 45" "1-B" "Prague" "00000" "Czech Republic"
        "+420702241333" "Pending" 7) 99 0 "X" (by decide) (by decide)).1⟩

end EStore
